import Mathlib

/-!
Verification development for the DermaScan request-processing pipeline
(`app.py` and `skin_cancer_detector.py`): the sliding-window rate limiter,
the upload validator with guaranteed temporary-artifact cleanup, the
clinical-taxonomy fuzzy lookup, and the prediction aggregation layer.
Timestamps are modelled as integers, probabilities as rationals; machine strings as
Lean strings over their character lists.
-/

namespace DermaScan

/-! ### Configuration constants, from the top of `app.py` -/

def RATE_LIMIT_MAX : Nat := 20

def RATE_LIMIT_WINDOW : ℤ := 60

def ALLOWED_EXTENSIONS : List String := [".jpg", ".jpeg", ".png", ".bmp", ".tiff", ".webp"]

def ALLOWED_MIMETYPES : List String :=
  ["image/jpeg", "image/png", "image/bmp", "image/tiff", "image/webp"]

/-! ### Clinical taxonomy (`CLASS_INFO` in `app.py`) -/

structure ClassInfo where
  risk : String
  description : String
  recommendation : String
deriving DecidableEq, Repr

def actinicInfo : ClassInfo :=
  { risk := "Pre-cancerous"
  , description := "Rough, scaly patch caused by sun damage. Can progress to squamous cell carcinoma."
  , recommendation := "Consult a dermatologist for evaluation and possible treatment." }

def basalInfo : ClassInfo :=
  { risk := "Malignant"
  , description := "Most common skin cancer. Slow-growing, rarely metastasizes, but requires treatment."
  , recommendation := "Seek immediate dermatological evaluation for biopsy and treatment options." }

def dermatofibromaInfo : ClassInfo :=
  { risk := "Benign"
  , description := "Harmless, firm nodule. No treatment necessary unless symptomatic."
  , recommendation := "Monitor for changes. No urgent action needed." }

def melanomaInfo : ClassInfo :=
  { risk := "Malignant"
  , description := "Most dangerous skin cancer. Early detection is critical for survival."
  , recommendation := "Urgent: Consult a dermatologist or oncologist immediately." }

def nevusInfo : ClassInfo :=
  { risk := "Benign"
  , description := "Common mole. Usually harmless but should be monitored for changes."
  , recommendation := "Use the ABCDE rule to monitor. Consult a doctor if changes occur." }

def pigmentedInfo : ClassInfo :=
  { risk := "Benign"
  , description := "Non-cancerous growth (e.g., seborrheic keratosis). Cosmetic concern only."
  , recommendation := "No medical treatment needed. Can be removed for cosmetic reasons." }

def squamousInfo : ClassInfo :=
  { risk := "Malignant"
  , description := "Second most common skin cancer. Can metastasize if untreated."
  , recommendation := "Seek prompt dermatological evaluation for biopsy and treatment." }

def vascularInfo : ClassInfo :=
  { risk := "Benign"
  , description := "Blood vessel abnormality (e.g., hemangioma). Usually harmless."
  , recommendation := "Monitor for changes. Treatment usually not required." }

/-- `CLASS_INFO` as an ordered association list; Python dicts preserve
insertion order, so iteration order is exactly the order written in the
source. -/
def CLASS_INFO : List (String × ClassInfo) :=
  [ ("actinic keratosis", actinicInfo)
  , ("basal cell carcinoma", basalInfo)
  , ("dermatofibroma", dermatofibromaInfo)
  , ("melanoma", melanomaInfo)
  , ("nevus", nevusInfo)
  , ("pigmented benign keratosis", pigmentedInfo)
  , ("squamous cell carcinoma", squamousInfo)
  , ("vascular lesion", vascularInfo) ]

/-! ### Python substring containment (`needle in hay` on str) -/

/-- Character-list version of the startswith test used by `charsHasSub`. -/
def charsHasPref : List Char → List Char → Bool
  | [], _ => true
  | _ :: _, [] => false
  | a :: as, b :: bs => a == b && charsHasPref as bs

/-- `charsHasSub needle hay` holds when `needle` occurs contiguously in
`hay`; the empty needle occurs in everything, as for Python `in`. -/
def charsHasSub (needle : List Char) : List Char → Bool
  | [] => needle.isEmpty
  | b :: bs => charsHasPref needle (b :: bs) || charsHasSub needle bs

/-- Python `needle in hay` on strings. -/
def strIn (needle hay : String) : Bool :=
  charsHasSub needle.data hay.data

/-- Python `s.lower()`, character by character (all strings in the program
are ASCII, where per-character lowering agrees with Python). -/
def pyLower (s : String) : String :=
  ⟨s.data.map Char.toLower⟩

/-! ### Taxonomy lookup (`_match_class_info` in `app.py`) -/

/-- The loop-body test of `_match_class_info`:
`key in label_lower or label_lower in key`. -/
def matchPred (labelLower : String) (kv : String × ClassInfo) : Bool :=
  strIn kv.1 labelLower || strIn labelLower kv.1

/-- The `for key, info in CLASS_INFO.items()` loop of `_match_class_info`. -/
def lookupClassInfo (labelLower : String) : List (String × ClassInfo) → Option ClassInfo
  | [] => none
  | kv :: rest =>
    if matchPred labelLower kv then some kv.2 else lookupClassInfo labelLower rest

/-- `_match_class_info(label)`: fuzzy-match a model label to `CLASS_INFO`. -/
def matchClassInfo (label : String) : Option ClassInfo :=
  lookupClassInfo (pyLower label) CLASS_INFO

/-! ### Rate limiter (`rate_limit` decorator in `app.py`) -/

/-- One admission check on a single key window: prune entries with
`now - t >= RATE_LIMIT_WINDOW`, reject when the remaining count has reached
`RATE_LIMIT_MAX`, otherwise record `now` and admit. Returns
(admitted, new window). -/
def rateAdmit (window : List ℤ) (now : ℤ) : Bool × List ℤ :=
  let pruned := window.filter (fun t => now - t < RATE_LIMIT_WINDOW)
  if RATE_LIMIT_MAX ≤ pruned.length then (false, pruned)
  else (true, pruned ++ [now])

/-- The admission check acting on the whole `_rate_limit_store` map: only
the entry of the requesting key is read or written. -/
def rateLimitStep (store : String → List ℤ) (ip : String) (now : ℤ) :
    Bool × (String → List ℤ) :=
  let r := rateAdmit (store ip) now
  (r.1, fun k => if k = ip then r.2 else store k)

/-! ### Python `Path(filename).suffix` -/

/-- Last index of `c` in the list, if any. -/
def rfindIdx (c : Char) : List Char → Option Nat
  | [] => none
  | a :: as =>
    match rfindIdx c as with
    | some i => some (i + 1)
    | none => if a == c then some 0 else none

/-- Split a character list into its slash-separated pieces. -/
def slashSplit (s : List Char) : List (List Char) :=
  match s with
  | [] => [[]]
  | c :: rest =>
    match slashSplit rest with
    | [] => [[]]
    | h :: t => if c == '/' then [] :: h :: t else (c :: h) :: t

/-- The final path component as `pathlib` parsing computes it: split on
slashes, drop empty components and single-dot components (both collapse
away during parsing), and keep the last remaining component, if any. -/
def lastComp (s : List Char) : List Char :=
  ((slashSplit s).filter (fun p => !p.isEmpty && p != ['.'])).getLastD []

/-- `Path(filename).suffix`: the extension of the final component, which is
`name[i:]` for the last dot index `i` when `0 < i < len(name) - 1`, and
empty otherwise. -/
def pySuffix (filename : String) : String :=
  let name := lastComp filename.data
  match rfindIdx '.' name with
  | some i => if 0 < i ∧ i < name.length - 1 then ⟨name.drop i⟩ else ""
  | none => ""

/-- `Path(file.filename).suffix.lower()` as computed in `api_predict`. -/
def extOf (filename : String) : String :=
  pyLower (pySuffix filename)

/-! ### Prediction rows and rounding (`run_prediction` in `app.py`) -/

/-- One entry of the `results` list built by `run_prediction`. -/
structure PredRow where
  label : String
  confidence : ℚ
  risk : String
  description : String
  recommendation : String
deriving DecidableEq, Repr

/-- Round a rational to the nearest integer, ties to even, as Python
`round` does. -/
def rndHalfEven (q : ℚ) : ℤ :=
  let f := ⌊q⌋
  if q - f < 1 / 2 then f
  else if 1 / 2 < q - f then f + 1
  else if f % 2 = 0 then f else f + 1

/-- Python `round(x, 2)` on rationals. -/
def pyRound2 (x : ℚ) : ℚ :=
  (rndHalfEven (x * 100) : ℚ) / 100

/-- Modelled from the spec: `torch.topk` is an external collaborator whose
code is not in this repository. The spec states that the top
`min(topK, length)` entries are selected by probability, descending, with
ties kept in the classifier order (stable, not re-sorted). `topkRel` orders
(index, probability) pairs by descending probability and, on equal
probability, by ascending original index. -/
def topkRel (a b : Nat × ℚ) : Prop :=
  b.2 < a.2 ∨ (a.2 = b.2 ∧ a.1 ≤ b.1)

instance : DecidableRel topkRel := fun a b => by
  unfold topkRel; infer_instance

instance : IsTotal (Nat × ℚ) topkRel where
  total a b := by
    rcases lt_trichotomy a.2 b.2 with h | h | h
    · exact Or.inr (Or.inl h)
    · rcases le_total a.1 b.1 with h1 | h1
      · exact Or.inl (Or.inr ⟨h, h1⟩)
      · exact Or.inr (Or.inr ⟨h.symm, h1⟩)
    · exact Or.inl (Or.inl h)

instance : IsTrans (Nat × ℚ) topkRel where
  trans a b c hab hbc := by
    rcases hab with hab | ⟨hab, hab1⟩
    · rcases hbc with hbc | ⟨hbc, _⟩
      · exact Or.inl (hbc.trans hab)
      · exact Or.inl (hbc ▸ hab)
    · rcases hbc with hbc | ⟨hbc, hbc1⟩
      · exact Or.inl (hab ▸ hbc)
      · exact Or.inr ⟨hab.trans hbc, hab1.trans hbc1⟩

/-- Modelled from the spec: `torch.topk(probs, k=min(top_k, len(probs)))`
with values sorted descending and stable ties. -/
def topk (probs : List ℚ) (k : Nat) : List (Nat × ℚ) :=
  (List.insertionSort topkRel probs.enum).take (min k probs.length)

/-- One iteration of the result-building loop of `run_prediction`. -/
def annotateRow (label : String) (p : ℚ) : PredRow :=
  let info := matchClassInfo label
  { label := label
  , confidence := pyRound2 (p * 100)
  , risk := match info with | some i => i.risk | none => "Unknown"
  , description := match info with | some i => i.description | none => ""
  , recommendation := match info with | some i => i.recommendation | none => "" }

/-- `run_prediction`: the external classifier produced the probability
vector `probs` over the vocabulary `id2label`; the selected entries are
annotated in order. -/
def runPrediction (id2label : Nat → String) (probs : List ℚ) (topK : Nat) : List PredRow :=
  (topk probs topK).map (fun e => annotateRow (id2label e.1) e.2)

/-! ### Urgent-attention flag (`display_results` in `skin_cancer_detector.py`) -/

def concernKeywords : List String := ["melanoma", "carcinoma", "actinic"]

/-- The flag `is_concerning` computed in `display_results` from the list of
result labels: `results[0]` faults on an empty list (modelled as `none`);
otherwise some fixed keyword must occur in the lower-cased top-1 label. -/
def isConcerning (labels : List String) : Option Bool :=
  match labels with
  | [] => none
  | top :: _ => some (concernKeywords.any (fun kw => strIn kw (pyLower top)))

/-! ### The `api_predict` handler (`app.py`) -/

/-- Outcome of `file.save(filepath)`: it may succeed, or raise after having
created the file, or raise before creating it. -/
inductive SaveResult
  | saved
  | failedCreated
  | failedNotCreated
deriving DecidableEq, Repr

/-- Outcome of `Image.open(...).convert("RGB")` followed by
`run_prediction`: a result list, or an exception. -/
inductive InferOutcome
  | ok (results : List PredRow)
  | raises
deriving DecidableEq, Repr

/-- The distinct response bodies `api_predict` can produce (the rate-limit
429 lives in the decorator, modelled separately). -/
inductive ApiResp
  | errNoImage
  | errNoFile
  | errBadExt
  | errBadMime
  | errNotImage
  | errServer
  | success (results : List PredRow)
deriving DecidableEq, Repr

/-- One incoming request to `/api/predict`, with the outcomes of the
environment-dependent steps (filesystem write, image content check,
inference) as oracle fields. -/
structure PredictReq where
  hasImageField : Bool
  filename : String
  contentType : String
  save : SaveResult
  contentValid : Bool
  openInfer : InferOutcome
deriving DecidableEq, Repr

/-- Whether the `file.save` call left a file on disk. -/
def saveCreates : SaveResult → Bool
  | .saved => true
  | .failedCreated => true
  | .failedNotCreated => false

/-- The `try`/`except` body of `api_predict` after validation has passed:
returns the control outcome together with whether the temporary file
exists at the moment the block is left (before `finally` runs). -/
def tryBody (req : PredictReq) : ApiResp × Bool :=
  match req.save with
  | .failedNotCreated => (.errServer, false)
  | .failedCreated => (.errServer, true)
  | .saved =>
    if !req.contentValid then (.errNotImage, true)
    else
      match req.openInfer with
      | .raises => (.errServer, true)
      | .ok rs => (.success rs, true)

/-- The `finally` clause: `if filepath.exists(): filepath.unlink()`. -/
def finallyCleanup (fileExists : Bool) : Bool :=
  if fileExists then false else fileExists

/-- What `api_predict` leaves behind: the response, whether a temporary
artifact was ever created, and whether it still exists after the return. -/
structure HandlerResult where
  resp : ApiResp
  artifactCreated : Bool
  artifactRemains : Bool
deriving DecidableEq, Repr

/-- The `api_predict` view function: the validation gates in source order,
then the persisted-content stage inside `try`/`finally`. -/
def apiPredict (req : PredictReq) : HandlerResult :=
  if !req.hasImageField then ⟨.errNoImage, false, false⟩
  else if req.filename == "" then ⟨.errNoFile, false, false⟩
  else if !(ALLOWED_EXTENSIONS.contains (extOf req.filename)) then ⟨.errBadExt, false, false⟩
  else if req.contentType != "" && !(ALLOWED_MIMETYPES.contains req.contentType) then
    ⟨.errBadMime, false, false⟩
  else
    let r := tryBody req
    ⟨r.1, saveCreates req.save, finallyCleanup r.2⟩

/-- Response of the decorated route: the `rate_limit` wrapper either
returns 429 without calling the view, or delegates to `api_predict`. -/
inductive RouteResp
  | rate429
  | handled (r : HandlerResult)
deriving DecidableEq, Repr

/-- The full decorated route `/api/predict` for one sequential request. -/
def apiPredictRoute (store : String → List ℤ) (ip : String) (now : ℤ)
    (req : PredictReq) : RouteResp × (String → List ℤ) :=
  let r := rateLimitStep store ip now
  if r.1 then (.handled (apiPredict req), r.2) else (.rate429, r.2)

/-! ### Interleaving model of the unsynchronized rate limiter

The decorator body runs without any lock. Under CPython the three
statements — the prune-and-reassign of `_rate_limit_store[ip]`, the length
test, and the `append` — are separate bytecode groups, so a concurrent
request for the same key can interleave between them. Each is modelled as
one atomic step. -/

/-- Program counter of one in-flight execution of the decorated check:
0 = about to prune and write back, 1 = about to test the length,
2 = about to append, 3 = returned (with its admission decision). -/
structure ThreadSt where
  pc : Nat
  admitted : Option Bool
deriving DecidableEq, Repr

/-- One atomic step of one thread running the body of `rate_limit` for the
same key at time `now`, acting on the shared stored window `sh`. -/
def rlStep (now : ℤ) (sh : List ℤ) (t : ThreadSt) : List ℤ × ThreadSt :=
  match t.pc with
  | 0 => (sh.filter (fun x => now - x < RATE_LIMIT_WINDOW), ⟨1, none⟩)
  | 1 =>
    if RATE_LIMIT_MAX ≤ sh.length then (sh, ⟨3, some false⟩)
    else (sh, ⟨2, none⟩)
  | 2 => (sh ++ [now], ⟨3, some true⟩)
  | _ => (sh, t)

/-- Two concurrent executions of the admission check for one key, plus the
shared stored window for that key. -/
structure RaceConfig where
  shared : List ℤ
  thA : ThreadSt
  thB : ThreadSt
deriving DecidableEq, Repr

/-- Run a schedule: `true` steps thread A, `false` steps thread B. Both
threads execute an admission check for the same key at time `now`. -/
def raceRun (now : ℤ) (sched : List Bool) (c : RaceConfig) : RaceConfig :=
  match sched with
  | [] => c
  | s :: rest =>
    let c2 :=
      if s then
        let r := rlStep now c.shared c.thA
        { shared := r.1, thA := r.2, thB := c.thB }
      else
        let r := rlStep now c.shared c.thB
        { shared := r.1, thA := c.thA, thB := r.2 }
    raceRun now rest c2

/-- Both threads at the start of the decorator body. -/
def raceStart (w : List ℤ) : RaceConfig :=
  ⟨w, ⟨0, none⟩, ⟨0, none⟩⟩

/-! ### End-to-end scenario data (spec section 8) -/

/-- Vocabulary of the end-to-end scenario: the classifier maps index `i`
to the `i`-th label below. -/
def exLabels : Nat → String := fun i =>
  ["melanoma", "nevus", "dermatofibroma", "vascular lesion", "basal cell carcinoma"].getD i ""

/-- Probability vector of the end-to-end scenario. -/
def exProbs : List ℚ := [62 / 100, 20 / 100, 10 / 100, 5 / 100, 3 / 100]

/-! ### Helper lemmas -/

/-- Generic first-match-wins lemma for the lookup loop: when every entry of
`pre` fails the test and `kv` passes it, the loop returns `kv`. -/
theorem lookupClassInfo_first (ll : String) :
    ∀ (pre post : List (String × ClassInfo)) (kv : String × ClassInfo),
      (∀ e ∈ pre, matchPred ll e = false) → matchPred ll kv = true →
      lookupClassInfo ll (pre ++ kv :: post) = some kv.2 := by
  intro pre
  induction pre with
  | nil => intro post kv _ hkv; simp [lookupClassInfo, hkv]
  | cons a l ih =>
    intro post kv hpre hkv
    have ha : matchPred ll a = false := hpre a (by simp)
    simp only [List.cons_append, lookupClassInfo, ha]
    simp only [Bool.false_eq_true, if_false]
    exact ih post kv (fun e he => hpre e (by simp [he])) hkv

/-- Generic no-match lemma for the lookup loop: when no entry passes the
test, the loop returns `none`. -/
theorem lookupClassInfo_nomatch (ll : String) :
    ∀ table : List (String × ClassInfo),
      (∀ e ∈ table, matchPred ll e = false) → lookupClassInfo ll table = none := by
  intro table
  induction table with
  | nil => intro _; rfl
  | cons a l ih =>
    intro h
    have ha : matchPred ll a = false := h a (by simp)
    simp only [lookupClassInfo, ha, Bool.false_eq_true, if_false]
    exact ih (fun e he => h e (by simp [he]))

/-- Evaluation of the top-k selection on the end-to-end scenario vector. -/
theorem topk_ex :
    topk exProbs 5 =
      [(0, 62 / 100), (1, 20 / 100), (2, 10 / 100), (3, 5 / 100), (4, 3 / 100)] := by
  norm_num [topk, List.insertionSort, List.orderedInsert, topkRel, List.enum, List.enumFrom,
    exProbs]

/-! ### Claim theorems -/

/-- Claim C1: on every admission check, timestamps with
`now - t >= WINDOW` are discarded first; if the remaining count is at
least `MAX` the request is rejected with the 429 response and `now` is not
recorded, otherwise `now` is appended and the request is admitted. After
`N` admitted calls whose timestamps all lie inside the trailing window, the
next call is rejected iff `N >= MAX`, and once every recorded timestamp has
aged past the window the key admits again. -/
theorem rate_limiter_window_property :
    (∀ (store : String → List ℤ) (ip : String) (now : ℤ) (req : PredictReq),
      ((apiPredictRoute store ip now req).1 = RouteResp.rate429 ↔
        RATE_LIMIT_MAX ≤ ((store ip).filter (fun t => now - t < RATE_LIMIT_WINDOW)).length) ∧
      ((apiPredictRoute store ip now req).2 ip =
        if RATE_LIMIT_MAX ≤ ((store ip).filter (fun t => now - t < RATE_LIMIT_WINDOW)).length
        then (store ip).filter (fun t => now - t < RATE_LIMIT_WINDOW)
        else (store ip).filter (fun t => now - t < RATE_LIMIT_WINDOW) ++ [now])) ∧
    (∀ (w : List ℤ) (now : ℤ),
      (∀ t ∈ w, now - t < RATE_LIMIT_WINDOW) →
      ((rateAdmit w now).1 = false ↔ RATE_LIMIT_MAX ≤ w.length)) ∧
    (∀ (w : List ℤ) (now : ℤ),
      (∀ t ∈ w, RATE_LIMIT_WINDOW ≤ now - t) → (rateAdmit w now).1 = true) := by
  refine ⟨?_, ?_, ?_⟩
  · intro store ip now req
    unfold apiPredictRoute rateLimitStep rateAdmit
    by_cases h : RATE_LIMIT_MAX ≤ ((store ip).filter (fun t => now - t < RATE_LIMIT_WINDOW)).length
    · simp [h]
    · simp [h]
  · intro w now hfresh
    have hf : w.filter (fun t => decide (now - t < RATE_LIMIT_WINDOW)) = w :=
      List.filter_eq_self.mpr (fun t ht => by simpa using hfresh t ht)
    unfold rateAdmit
    by_cases h : RATE_LIMIT_MAX ≤ w.length
    · simp [hf, h]
    · simp [hf, h]
  · intro w now hold
    have hf : w.filter (fun t => decide (now - t < RATE_LIMIT_WINDOW)) = [] := by
      apply List.filter_eq_nil_iff.mpr
      intro t ht
      simpa using not_lt.mpr (hold t ht)
    unfold rateAdmit
    simp [hf, RATE_LIMIT_MAX]

/-- Witness for C1: a full window of 20 fresh timestamps rejects; a window
whose only timestamp is 60 seconds old admits. -/
theorem rate_limiter_window_property_witness :
    ((rateAdmit (List.replicate 20 (0:ℤ)) 1).1 = false ↔
      RATE_LIMIT_MAX ≤ (List.replicate 20 (0:ℤ)).length) ∧
    (rateAdmit [(0:ℤ)] 60).1 = true :=
  ⟨rate_limiter_window_property.2.1 (List.replicate 20 (0:ℤ)) 1 (by decide),
   rate_limiter_window_property.2.2 [(0:ℤ)] 60 (by decide)⟩

/-- Claim C2: on every exit path of `api_predict` — success,
content-validation failure, and any exception during save, image opening or
inference — the temporary artifact does not exist after the handler
returns. -/
theorem cleanup_guarantee :
    ∀ req : PredictReq, (apiPredict req).artifactRemains = false := by
  intro req
  unfold apiPredict tryBody finallyCleanup
  rcases req with ⟨hif, fn, ct, sv, cv, oi⟩
  cases sv <;> cases oi <;> simp <;> split_ifs <;> simp

/-- Claim C3 evaluation: the admission check holds no lock, so its prune,
length test and append interleave with a concurrent check for the same
key. Starting from 19 fresh timestamps (one below MAX = 20), the schedule
A-prune, B-prune, A-test, B-test, A-append, B-append admits both requests
and leaves 21 fresh timestamps — a trailing-window count past MAX, which
the claim asserts can never happen. -/
theorem rate_limiter_race_counterexample :
    ((raceRun 1 [true, false, true, false, true, false]
        (raceStart (List.replicate 19 0))).thA.admitted = some true) ∧
    ((raceRun 1 [true, false, true, false, true, false]
        (raceStart (List.replicate 19 0))).thB.admitted = some true) ∧
    RATE_LIMIT_MAX <
      (((raceRun 1 [true, false, true, false, true, false]
          (raceStart (List.replicate 19 0))).shared.filter
            (fun t => 1 - t < RATE_LIMIT_WINDOW)).length) := by
  decide

/-- Claim C4: the validation gates run in source order — presence of the
file part, non-empty filename, lower-cased extension allow-list, declared
MIME allow-list, then the persisted content check — short-circuiting at the
first failure with a distinct reason. A disallowed extension is rejected
regardless of the oracle fields modelling true byte content, and before any
artifact is created; an empty declared content-type is tolerated while a
declared type outside the allow-set is rejected. -/
theorem validation_order :
    (∀ req : PredictReq, req.hasImageField = false →
      apiPredict req = ⟨ApiResp.errNoImage, false, false⟩) ∧
    (∀ req : PredictReq, req.hasImageField = true → req.filename = "" →
      apiPredict req = ⟨ApiResp.errNoFile, false, false⟩) ∧
    (∀ req : PredictReq, req.hasImageField = true → req.filename ≠ "" →
      ALLOWED_EXTENSIONS.contains (extOf req.filename) = false →
      apiPredict req = ⟨ApiResp.errBadExt, false, false⟩) ∧
    (∀ req : PredictReq, req.hasImageField = true → req.filename ≠ "" →
      ALLOWED_EXTENSIONS.contains (extOf req.filename) = true →
      req.contentType ≠ "" → ALLOWED_MIMETYPES.contains req.contentType = false →
      apiPredict req = ⟨ApiResp.errBadMime, false, false⟩) ∧
    (∀ req : PredictReq, req.hasImageField = true → req.filename ≠ "" →
      ALLOWED_EXTENSIONS.contains (extOf req.filename) = true →
      req.contentType = "" →
      apiPredict req = ⟨(tryBody req).1, saveCreates req.save, finallyCleanup (tryBody req).2⟩) ∧
    (∀ req : PredictReq, req.hasImageField = true → req.filename ≠ "" →
      ALLOWED_EXTENSIONS.contains (extOf req.filename) = true →
      (req.contentType = "" ∨ ALLOWED_MIMETYPES.contains req.contentType = true) →
      req.save = SaveResult.saved → req.contentValid = false →
      apiPredict req = ⟨ApiResp.errNotImage, true, false⟩) ∧
    List.Pairwise (fun a b => a ≠ b)
      [ApiResp.errNoImage, ApiResp.errNoFile, ApiResp.errBadExt, ApiResp.errBadMime,
        ApiResp.errNotImage] := by
  refine ⟨?_, ?_, ?_, ?_, ?_, ?_, by decide⟩
  · intro req h; simp [apiPredict, h]
  · intro req h1 h2; simp [apiPredict, h1, h2]
  · intro req h1 h2 h3
    have hm : extOf req.filename ∉ ALLOWED_EXTENSIONS := by simpa using h3
    simp [apiPredict, h1, h2, hm]
  · intro req h1 h2 h3 h4 h5
    have hm : extOf req.filename ∈ ALLOWED_EXTENSIONS := by simpa using h3
    have hmm : req.contentType ∉ ALLOWED_MIMETYPES := by simpa using h5
    simp [apiPredict, h1, h2, hm, h4, hmm]
  · intro req h1 h2 h3 h4
    have hm : extOf req.filename ∈ ALLOWED_EXTENSIONS := by simpa using h3
    simp [apiPredict, h1, h2, hm, h4]
  · intro req h1 h2 h3 h4 h5 h6
    have hm : extOf req.filename ∈ ALLOWED_EXTENSIONS := by simpa using h3
    rcases h4 with h4 | h4
    · simp [apiPredict, h1, h2, hm, h4, tryBody, h5, h6, finallyCleanup, saveCreates]
    · have hmm : req.contentType ∈ ALLOWED_MIMETYPES := by simpa using h4
      simp [apiPredict, h1, h2, hm, hmm, tryBody, h5, h6, finallyCleanup, saveCreates]

/-- Witness for C4: a `.exe` upload is rejected at the extension gate with
no artifact even though its content oracle says it is a valid image; a
declared `text/html` type is rejected at the MIME gate; a `.jpg` upload
with invalid content reaches the persisted content check and is rejected
there, with the artifact created and then cleaned. -/
theorem validation_order_witness :
    apiPredict ⟨true, "lesion.exe", "", SaveResult.saved, true, InferOutcome.ok []⟩ =
      ⟨ApiResp.errBadExt, false, false⟩ ∧
    apiPredict ⟨true, "lesion.jpg", "text/html", SaveResult.saved, true, InferOutcome.ok []⟩ =
      ⟨ApiResp.errBadMime, false, false⟩ ∧
    apiPredict ⟨true, "lesion.jpg", "", SaveResult.saved, false, InferOutcome.ok []⟩ =
      ⟨ApiResp.errNotImage, true, false⟩ :=
  ⟨validation_order.2.2.1 ⟨true, "lesion.exe", "", SaveResult.saved, true, InferOutcome.ok []⟩
      rfl (by decide) (by decide),
    validation_order.2.2.2.1
      ⟨true, "lesion.jpg", "text/html", SaveResult.saved, true, InferOutcome.ok []⟩
      rfl (by decide) (by decide) (by decide) (by decide),
    validation_order.2.2.2.2.2.1
      ⟨true, "lesion.jpg", "", SaveResult.saved, false, InferOutcome.ok []⟩
      rfl (by decide) (by decide) (Or.inl rfl) rfl rfl⟩

/-- Claim C5: taxonomy lookup tests case-insensitive substring containment
in either direction, the first matching entry in table order wins, and when
no entry matches the annotated row carries risk Unknown with empty
description and recommendation, never an error. Concretely, melanoma maps
to risk Malignant, Melanocytic Nevus maps to the nevus entry with risk
Benign, and xyz-unknown-123 maps to risk Unknown. -/
theorem taxonomy_lookup_policy :
    (∀ (label : String) (kv : String × ClassInfo),
      matchPred (pyLower label) kv = (strIn kv.1 (pyLower label) || strIn (pyLower label) kv.1)) ∧
    (∀ (label : String) (pre post : List (String × ClassInfo)) (kv : String × ClassInfo),
      CLASS_INFO = pre ++ kv :: post →
      (∀ e ∈ pre, matchPred (pyLower label) e = false) →
      matchPred (pyLower label) kv = true →
      matchClassInfo label = some kv.2) ∧
    (∀ label : String,
      (∀ e ∈ CLASS_INFO, matchPred (pyLower label) e = false) → matchClassInfo label = none) ∧
    (∀ (label : String) (p : ℚ), matchClassInfo label = none →
      (annotateRow label p).risk = "Unknown" ∧ (annotateRow label p).description = "" ∧
      (annotateRow label p).recommendation = "") ∧
    (matchClassInfo "melanoma").map ClassInfo.risk = some "Malignant" ∧
    (matchClassInfo "Melanocytic Nevus" = some nevusInfo ∧ nevusInfo.risk = "Benign") ∧
    (∀ p : ℚ, (annotateRow "xyz-unknown-123" p).risk = "Unknown" ∧
      (annotateRow "xyz-unknown-123" p).description = "" ∧
      (annotateRow "xyz-unknown-123" p).recommendation = "") := by
  refine ⟨fun label kv => rfl, ?_, ?_, ?_, by decide, ⟨by decide, rfl⟩, ?_⟩
  · intro label pre post kv htab hpre hkv
    unfold matchClassInfo
    rw [htab]
    exact lookupClassInfo_first (pyLower label) pre post kv hpre hkv
  · intro label h
    unfold matchClassInfo
    exact lookupClassInfo_nomatch (pyLower label) CLASS_INFO h
  · intro label p h
    unfold annotateRow
    rw [h]
    exact ⟨rfl, rfl, rfl⟩
  · intro p
    have h : matchClassInfo "xyz-unknown-123" = none := by decide
    unfold annotateRow
    rw [h]
    exact ⟨rfl, rfl, rfl⟩

/-- Witness for C5: the first-match clause applied at Melanocytic Nevus
with the four earlier non-matching entries, and the no-match clause applied
at xyz-unknown-123. -/
theorem taxonomy_lookup_policy_witness :
    matchClassInfo "Melanocytic Nevus" = some nevusInfo ∧
    matchClassInfo "xyz-unknown-123" = none :=
  ⟨taxonomy_lookup_policy.2.1 "Melanocytic Nevus"
      [("actinic keratosis", actinicInfo), ("basal cell carcinoma", basalInfo),
        ("dermatofibroma", dermatofibromaInfo), ("melanoma", melanomaInfo)]
      [("pigmented benign keratosis", pigmentedInfo),
        ("squamous cell carcinoma", squamousInfo), ("vascular lesion", vascularInfo)]
      ("nevus", nevusInfo) (by decide) (by decide) (by decide),
    taxonomy_lookup_policy.2.2.1 "xyz-unknown-123" (by decide)⟩

/-- Claim C6: the urgent-attention flag is true iff the lower-cased top-1
label contains melanoma, carcinoma or actinic as a substring; it depends
only on the top-1 label and not on the other entries. A top-1 of Basal
cell carcinoma sets it true, a top-1 of Dermatofibroma sets it false. -/
theorem urgent_flag_top1 :
    (∀ (top : String) (rest : List String),
      isConcerning (top :: rest) =
        some (concernKeywords.any (fun kw => strIn kw (pyLower top)))) ∧
    (∀ (top : String) (rest rest2 : List String),
      isConcerning (top :: rest) = isConcerning (top :: rest2)) ∧
    (∀ rest : List String, isConcerning ("Basal cell carcinoma" :: rest) = some true) ∧
    (∀ rest : List String, isConcerning ("Dermatofibroma" :: rest) = some false) := by
  refine ⟨fun top rest => rfl, fun top rest rest2 => rfl, fun rest => rfl, fun rest => rfl⟩

/-- Claim C7: prediction aggregation returns exactly
`min(topK, vocabulary size)` entries, ordered by descending probability,
with ties kept in the classifier order (on equal probabilities the
original indices stay ascending, i.e. the stable order is not re-sorted). -/
theorem topk_length_sorted :
    ∀ (id2label : Nat → String) (probs : List ℚ) (k : Nat),
      (runPrediction id2label probs k).length = min k probs.length ∧
      List.Pairwise (fun a b : Nat × ℚ => b.2 ≤ a.2) (topk probs k) ∧
      List.Pairwise (fun a b : Nat × ℚ => a.2 = b.2 → a.1 < b.1) (topk probs k) := by
  intro id2label probs k
  have hsorted : List.Pairwise topkRel (List.insertionSort topkRel probs.enum) :=
    List.sorted_insertionSort topkRel probs.enum
  have hsub : List.Sublist (topk probs k) (List.insertionSort topkRel probs.enum) :=
    List.take_sublist _ _
  have hs : List.Pairwise topkRel (topk probs k) := hsorted.sublist hsub
  have hnodup : ((List.insertionSort topkRel probs.enum).map Prod.fst).Nodup := by
    have hperm : (List.insertionSort topkRel probs.enum).Perm probs.enum :=
      List.perm_insertionSort _ _
    exact ((hperm.map Prod.fst).nodup_iff).mpr (List.nodup_enum_map_fst probs)
  have hne : List.Pairwise (fun a b : Nat × ℚ => a.1 ≠ b.1) (topk probs k) := by
    have := (List.pairwise_map.mp hnodup)
    exact this.sublist hsub
  refine ⟨?_, ?_, ?_⟩
  · simp only [runPrediction, topk, List.length_map, List.length_take,
      List.length_insertionSort, List.enum_length]
    omega
  · exact hs.imp (fun h => h.elim le_of_lt (fun h2 => le_of_eq h2.1.symm))
  · refine hs.imp₂ (fun a b hr hne heq => ?_) hne
    rcases hr with hlt | ⟨_, hle⟩
    · exact absurd (heq ▸ hlt) (lt_irrefl _)
    · exact lt_of_le_of_ne hle hne

/-- Claim C8: every selected entry reports confidence equal to its
probability times 100, rounded to 2 decimal places; on the end-to-end
scenario with melanoma at probability 0.62 the response lists melanoma
first with confidence 62 and risk Malignant. -/
theorem confidence_rounding :
    (∀ (id2label : Nat → String) (probs : List ℚ) (k : Nat),
      (runPrediction id2label probs k).map PredRow.confidence =
        (topk probs k).map (fun e => pyRound2 (e.2 * 100))) ∧
    (runPrediction exLabels exProbs 5).map (fun r => (r.label, r.confidence, r.risk)) =
      [("melanoma", (62 : ℚ), "Malignant"), ("nevus", 20, "Benign"),
        ("dermatofibroma", 10, "Benign"), ("vascular lesion", 5, "Benign"),
        ("basal cell carcinoma", 3, "Malignant")] := by
  constructor
  · intro id2label probs k
    simp only [runPrediction, List.map_map]
    rfl
  · have h0 : matchClassInfo "melanoma" = some melanomaInfo := by decide
    have h1 : matchClassInfo "nevus" = some nevusInfo := by decide
    have h2 : matchClassInfo "dermatofibroma" = some dermatofibromaInfo := by decide
    have h3 : matchClassInfo "vascular lesion" = some vascularInfo := by decide
    have h4 : matchClassInfo "basal cell carcinoma" = some basalInfo := by decide
    simp only [runPrediction, topk_ex, List.map_cons, List.map_nil]
    simp only [annotateRow, exLabels, List.getD]
    norm_num [h0, h1, h2, h3, h4, pyRound2, rndHalfEven, melanomaInfo, nevusInfo,
      dermatofibromaInfo, vascularInfo, basalInfo]

/-- Claim C9: after every admission check for a key at time `now`, every
stored timestamp of that key satisfies `now - t < WINDOW`; the stored list
holds at most MAX entries whenever it did before the call; and the check
never touches the window of any other key (pruning is lazy, per key). -/
theorem rate_window_invariant :
    ∀ (store : String → List ℤ) (ip : String) (now : ℤ),
      (∀ t ∈ (rateLimitStep store ip now).2 ip, now - t < RATE_LIMIT_WINDOW) ∧
      ((store ip).length ≤ RATE_LIMIT_MAX →
        ((rateLimitStep store ip now).2 ip).length ≤ RATE_LIMIT_MAX) ∧
      (∀ k, k ≠ ip → (rateLimitStep store ip now).2 k = store k) := by
  intro store ip now
  unfold rateLimitStep rateAdmit
  refine ⟨?_, ?_, ?_⟩
  · intro t ht
    simp at ht
    split_ifs at ht with h
    · simp at ht
      exact ht.2
    · simp at ht
      rcases ht with ⟨_, h2⟩ | h2
      · exact h2
      · simp [h2, RATE_LIMIT_WINDOW]
  · intro hlen
    by_cases h : RATE_LIMIT_MAX ≤
        ((store ip).filter (fun t => now - t < RATE_LIMIT_WINDOW)).length
    · simp [h]
      exact le_trans (List.length_filter_le _ _) hlen
    · simp [h]
      push_neg at h
      omega
  · intro k hk
    simp [hk]

/-- Witness for C9: a one-entry store within the bound stays within the
bound, and the window of a different key is untouched. -/
theorem rate_window_invariant_witness :
    (((rateLimitStep (fun _ => [(0:ℤ)]) "a" 1).2 "a").length ≤ RATE_LIMIT_MAX) ∧
    ((rateLimitStep (fun _ => [(0:ℤ)]) "a" 1).2 "b" = [(0:ℤ)]) :=
  ⟨(rate_window_invariant (fun _ => [(0:ℤ)]) "a" 1).2.1 (by decide),
   (rate_window_invariant (fun _ => [(0:ℤ)]) "a" 1).2.2 "b" (by decide)⟩

/-- Claim C10: a label whose lower-casing is empty matches every table key
under the bidirectional substring test, so lookup returns the first entry
in table order — the actinic keratosis entry with risk Pre-cancerous —
never the Unknown sentinel. -/
theorem empty_label_first_entry :
    ∀ label : String, pyLower label = "" →
      (∀ kv ∈ CLASS_INFO, matchPred (pyLower label) kv = true) ∧
      matchClassInfo label = some actinicInfo ∧
      actinicInfo.risk = "Pre-cancerous" := by
  intro label h
  unfold matchClassInfo
  rw [h]
  exact ⟨by decide, by decide, rfl⟩

/-- Witness for C10: the empty label itself. -/
theorem empty_label_first_entry_witness :
    matchClassInfo "" = some actinicInfo ∧ actinicInfo.risk = "Pre-cancerous" :=
  ⟨(empty_label_first_entry "" (by decide)).2.1, (empty_label_first_entry "" (by decide)).2.2⟩

end DermaScan
